import Mathlib

set_option maxRecDepth 100000

/-!
# PayNow/SGQR payload codec and transaction-reference allocator

Shallow embedding of the core of `src/bot.js` (lines 62–173):
the TLV field encoder `tlv`, the checksum `crc16ccitt`, the merchant
account info builder `buildMAI_PayNow`, the payload assembler
`buildPayNowPayload`, and the transaction-reference allocator
(`resetKeyNoon`, `companyPrefix`, `nextTxnId`).

Modelling conventions:
* JavaScript strings are modelled as Lean `String`s; string length, slicing
  and case mapping act on the character list `String.data` (the payloads in
  question are ASCII, where JS UTF-16 code units and Lean characters agree).
* JS 32-bit integer bitwise arithmetic is modelled on `Nat` with explicit
  masking by `&&& 0xffff`, exactly where the source masks.
* The JS `amount` number is modelled as an exact count of cents
  (`amountCents : Int`); `Number(amount).toFixed(2)` becomes `toFixed2`.
* JS `throw` of the validation errors is modelled by `Except PayErr`.
-/

/-- JS `s.length` (character count). -/
def jsLength (s : String) : Nat := s.data.length

/-- JS `s.padStart(n, c)`: left-pad `s` with `c` up to length `n`. -/
def padStart (n : Nat) (c : Char) (s : String) : String :=
  String.mk (List.replicate (n - jsLength s) c) ++ s

/-- JS `s.slice(n)`: drop the first `n` characters. -/
def jsDrop (n : Nat) (s : String) : String := String.mk (s.data.drop n)

/-- JS `s.slice(0, n)`: keep the first `n` characters. -/
def jsTake (n : Nat) (s : String) : String := String.mk (s.data.take n)

/-- JS `s.startsWith(p)`. -/
def jsStartsWith (p s : String) : Bool := List.isPrefixOf p.data s.data

/-- JS `s.toLowerCase()` (ASCII case mapping suffices here). -/
def jsToLower (s : String) : String := String.mk (s.data.map Char.toLower)

/-- `function tlv(id, value){ const v=String(value);
    const len=v.length.toString().padStart(2,'0'); return id+len+v; }`
    (src/bot.js line 66). -/
def tlv (id v : String) : String := id ++ padStart 2 '0' (toString (jsLength v)) ++ v

/-- Hexadecimal digit character, uppercase (models the composite
    `.toString(16).toUpperCase()` of the source, which produces these
    characters for each 4-bit digit). -/
def hexChar (n : Nat) : Char :=
  if n = 0 then '0' else if n = 1 then '1' else if n = 2 then '2'
  else if n = 3 then '3' else if n = 4 then '4' else if n = 5 then '5'
  else if n = 6 then '6' else if n = 7 then '7' else if n = 8 then '8'
  else if n = 9 then '9' else if n = 10 then 'A' else if n = 11 then 'B'
  else if n = 12 then 'C' else if n = 13 then 'D' else if n = 14 then 'E'
  else 'F'

/-- Digits of `n` base 16, most significant first, computed with explicit
    fuel so that the definition is structurally recursive (the fuel `n + 1`
    always suffices since `n / 16 < n` for `n ≥ 16`). -/
def toHexAux : Nat → Nat → List Char
  | 0, _ => []
  | fuel + 1, n =>
    if n < 16 then [hexChar n] else toHexAux fuel (n / 16) ++ [hexChar (n % 16)]

/-- Digits of `n` base 16, most significant first (JS `n.toString(16)`). -/
def toHexDigits (n : Nat) : List Char := toHexAux (n + 1) n

/-- JS `n.toString(16).toUpperCase()`. -/
def toHexUpper (n : Nat) : String := String.mk (toHexDigits n)

/-- One iteration of the inner loop of `crc16ccitt`:
    `crc=(crc&0x8000)?((crc<<1)^0x1021):(crc<<1); crc&=0xffff;`. -/
def crcShift (crc : Nat) : Nat :=
  (if crc &&& 0x8000 ≠ 0 then (crc <<< 1) ^^^ 0x1021 else crc <<< 1) &&& 0xffff

/-- `b` iterations of the inner loop (the source runs it 8 times). -/
def crcBits : Nat → Nat → Nat
  | 0, crc => crc
  | b + 1, crc => crcBits b (crcShift crc)

/-- The per-character update `crc^=str.charCodeAt(i)<<8` followed by the
    8-round inner loop, folded over all character codes. -/
def crcFold (crc : Nat) (codes : List Nat) : Nat :=
  codes.foldl (fun c code => crcBits 8 (c ^^^ (code <<< 8))) crc

/-- JS `str.charCodeAt(i)` for each position (ASCII/BMP agree with
    `Char.toNat`). -/
def charCodes (s : String) : List Nat := s.data.map Char.toNat

/-- `function crc16ccitt(str)` (src/bot.js lines 67–74): register starts at
    `0xffff`; per character, XOR the code unit into the high byte, run the
    8-round shift loop masking to 16 bits; format as uppercase hex padded
    to 4 digits. -/
def crc16ccitt (s : String) : String :=
  padStart 4 '0' (toHexUpper (crcFold 0xffff (charCodes s)))

/-- The validation failures thrown by the builders (spec §7 taxonomy;
    the source throws `Error` with corresponding messages). -/
inductive PayErr where
  | InvalidAmount
  | InvalidProxyValue
  | MissingConfiguration
  deriving DecidableEq, Repr

/-- Arguments of `buildMAI_PayNow` after JS destructuring-default
    resolution (`editable=false` supplied by the caller when absent). -/
structure MAIArgs where
  mode : String
  uen : String
  mobile : String
  editable : Bool
  expiry : Option String
  deriving Repr

/-- JS `String(mobile||'').replace(/[^\d]/g,'')`. -/
def stripNonDigits (s : String) : String := String.mk (s.data.filter Char.isDigit)

/-- The four accepted digit shapes of the mobile path (src/bot.js
    lines 81–84): already 8 digits; `65`+8; `065`+8; `0065`+8 — each
    reduced to the trailing 8 digits; otherwise `null`. -/
def normalizeLocal8 (digits : String) : Option String :=
  if jsLength digits = 8 then some digits
  else if jsStartsWith "65" digits && jsLength digits == 10 then some (jsDrop 2 digits)
  else if jsStartsWith "065" digits && jsLength digits == 11 then some (jsDrop 3 digits)
  else if jsStartsWith "0065" digits && jsLength digits == 12 then some (jsDrop 4 digits)
  else none

/-- The regex `/^[89]\d{7}$/` (src/bot.js line 85). -/
def validLocal8 (s : String) : Bool :=
  match s.data with
  | [] => false
  | c :: rest => (c == '8' || c == '9') && rest.length == 7 && rest.all Char.isDigit

/-- `function buildMAI_PayNow({ mode, uen, mobile, editable=false, expiry })`
    (src/bot.js lines 75–95). -/
def buildMAI_PayNow (a : MAIArgs) : Except PayErr String :=
  let gui := tlv "00" "SG.PAYNOW"
  if a.mode = "mobile" then
    let proxyType := tlv "01" "0"
    let digits := stripNonDigits a.mobile
    match normalizeLocal8 digits with
    | none => .error .InvalidProxyValue
    | some local8 =>
      if validLocal8 local8 then
        let proxyValue := tlv "02" local8
        let editableFlag := tlv "03" (if a.editable then "1" else "0")
        let expiryPart := match a.expiry with
          | some e => if e = "" then "" else tlv "04" e
          | none => ""
        .ok (tlv "26" (gui ++ proxyType ++ proxyValue ++ editableFlag ++ expiryPart))
      else .error .InvalidProxyValue
  else
    let proxyType := tlv "01" "2"
    if a.uen = "" then .error .MissingConfiguration
    else
      let proxyValue := tlv "02" a.uen
      let editableFlag := tlv "03" (if a.editable then "1" else "0")
      let expiryPart := match a.expiry with
        | some e => if e = "" then "" else tlv "04" e
        | none => ""
      .ok (tlv "26" (gui ++ proxyType ++ proxyValue ++ editableFlag ++ expiryPart))

/-- Module-level configuration constants (src/bot.js lines 27–31). -/
structure Config where
  MODE : String
  UEN : String
  MOBILE : String
  MERCHANT_NAME : String
  MERCHANT_CITY : String
  deriving Repr

/-- A raw environment value: `none` for an unset variable. -/
def envStr (o : Option String) (d : String) : String :=
  match o with
  | none => d
  | some s => if s = "" then d else s

/-- The optional environment variables read at module load. -/
structure Env where
  PAYNOW_MODE : Option String
  PAYNOW_UEN : Option String
  PAYNOW_MOBILE : Option String
  MERCHANT_NAME : Option String
  MERCHANT_CITY : Option String

/-- src/bot.js lines 27–31: `MODE = (process.env.PAYNOW_MODE || 'uen')
    .toLowerCase()`, `UEN = process.env.PAYNOW_UEN || ''`, etc. -/
def configOfEnv (e : Env) : Config :=
  { MODE := jsToLower (envStr e.PAYNOW_MODE "uen")
    UEN := envStr e.PAYNOW_UEN ""
    MOBILE := envStr e.PAYNOW_MOBILE ""
    MERCHANT_NAME := envStr e.MERCHANT_NAME "Receiver"
    MERCHANT_CITY := envStr e.MERCHANT_CITY "Singapore" }

/-- `Number(amount).toFixed(2)` for an amount held exactly as `cents / 100`
    SGD (only evaluated on positive amounts, where `toFixed` is plain
    decimal formatting with two fraction digits). -/
def toFixed2 (cents : Int) : String :=
  toString (cents.toNat / 100) ++ "." ++ padStart 2 '0' (toString (cents.toNat % 100))

/-- Arguments of `buildPayNowPayload` after JS destructuring-default
    resolution: `mode=MODE, uen=UEN, mobile=MOBILE, merchantName=
    MERCHANT_NAME, merchantCity=MERCHANT_CITY` default from the module
    configuration when the caller omits them. -/
structure PayloadArgs where
  mode : String
  uen : String
  mobile : String
  amountCents : Int
  reference : String
  merchantName : String
  merchantCity : String
  editable : Bool
  expiry : Option String

/-- `function buildPayNowPayload({...})` (src/bot.js lines 96–112).
    Note lines 105–106 read the module constants `MERCHANT_NAME` /
    `MERCHANT_CITY`, not the destructured parameters. -/
def buildPayNowPayload (cfg : Config) (a : PayloadArgs) : Except PayErr String :=
  if ¬ (0 < a.amountCents) then .error .InvalidAmount
  else
    match buildMAI_PayNow ⟨a.mode, a.uen, a.mobile, a.editable, a.expiry⟩ with
    | .error e => .error e
    | .ok id26 =>
      let id00 := tlv "00" "01"
      let id01 := tlv "01" "12"
      let id52 := tlv "52" "0000"
      let id53 := tlv "53" "702"
      let id54 := tlv "54" (toFixed2 a.amountCents)
      let id58 := tlv "58" "SG"
      let id59 := tlv "59" (jsTake 25 cfg.MERCHANT_NAME)
      let id60 := tlv "60" (if cfg.MERCHANT_CITY = "" then "Singapore" else cfg.MERCHANT_CITY)
      let bill := tlv "01" (jsTake 25 a.reference)
      let id62 := tlv "62" bill
      let body := id00 ++ id01 ++ id26 ++ id52 ++ id53 ++ id54 ++ id58 ++ id59 ++ id60 ++ id62
      let crc := crc16ccitt (body ++ "63" ++ "04")
      .ok (body ++ tlv "63" crc)

/-- Modelled from the claim C2's field list (for comparison only): the
    assembler as the claim describes it, with no field between the
    merchant-account-info block and the transaction-currency field. -/
def buildPayNowPayloadClaimedC2 (cfg : Config) (a : PayloadArgs) : Except PayErr String :=
  if ¬ (0 < a.amountCents) then .error .InvalidAmount
  else
    match buildMAI_PayNow ⟨a.mode, a.uen, a.mobile, a.editable, a.expiry⟩ with
    | .error e => .error e
    | .ok id26 =>
      let id00 := tlv "00" "01"
      let id01 := tlv "01" "12"
      let id53 := tlv "53" "702"
      let id54 := tlv "54" (toFixed2 a.amountCents)
      let id58 := tlv "58" "SG"
      let id59 := tlv "59" (jsTake 25 cfg.MERCHANT_NAME)
      let id60 := tlv "60" (if cfg.MERCHANT_CITY = "" then "Singapore" else cfg.MERCHANT_CITY)
      let bill := tlv "01" (jsTake 25 a.reference)
      let id62 := tlv "62" bill
      let body := id00 ++ id01 ++ id26 ++ id53 ++ id54 ++ id58 ++ id59 ++ id60 ++ id62
      let crc := crc16ccitt (body ++ "63" ++ "04")
      .ok (body ++ tlv "63" crc)

/-- A local calendar date (JS `Date` components: `getFullYear()`,
    `getMonth()+1`, `getDate()`). -/
structure LocalDate where
  year : Nat
  month : Nat
  day : Nat
  deriving DecidableEq, Repr

/-- Gregorian leap-year rule (the calendar JS `Date` implements). -/
def isLeapYear (y : Nat) : Bool := (y % 4 == 0 && y % 100 != 0) || y % 400 == 0

/-- Days in a month of the Gregorian calendar. -/
def daysInMonth (y m : Nat) : Nat :=
  if m == 2 then (if isLeapYear y then 29 else 28)
  else if m == 4 || m == 6 || m == 9 || m == 11 then 30
  else 31

/-- JS `d.setDate(d.getDate()-1)` on a valid date: the previous calendar
    day, rolling over month and year boundaries. -/
def prevCalendarDay (d : LocalDate) : LocalDate :=
  if 1 < d.day then ⟨d.year, d.month, d.day - 1⟩
  else if 1 < d.month then ⟨d.year, d.month - 1, daysInMonth d.year (d.month - 1)⟩
  else ⟨d.year - 1, 12, 31⟩

/-- A local date-time as the allocator observes it (only the hour of the
    time of day matters to the noon rule). -/
structure LocalDateTime where
  date : LocalDate
  hour : Nat
  deriving DecidableEq, Repr

/-- The formatted key `` `${d.getFullYear()}-${mm}-${dd}-noon` `` with
    2-padded month and day (src/bot.js lines 152–154). -/
def dateKey (d : LocalDate) : String :=
  toString d.year ++ "-" ++ padStart 2 '0' (toString d.month) ++ "-"
    ++ padStart 2 '0' (toString d.day) ++ "-noon"

/-- `function resetKeyNoon()` (src/bot.js lines 149–155): before local
    noon the date is stepped back one calendar day, then formatted. -/
def resetKeyNoon (now : LocalDateTime) : String :=
  if now.hour < 12 then dateKey (prevCalendarDay now.date) else dateKey now.date

/-- `function companyPrefix(company)` (src/bot.js lines 156–164). -/
def companyPrefix (company : String) : String :=
  let c := jsToLower company
  if c = "lunar" then "L"
  else if c = "wave" then "W"
  else if c = "ion" then "I"
  else if c = "101" then "1"
  else "X"

/-- The `DB.counters` object: the `date` property plus the per-company
    integer properties, in insertion order. -/
structure Counters where
  date : Option String
  entries : List (String × Nat)
  deriving DecidableEq, Repr

/-- The replacement object `{ date:keyDate, Lunar:0, Wave:0, Ion:0,
    '101':0 }` installed on a reset-key change (src/bot.js line 167). -/
def freshCounters (keyDate : String) : Counters :=
  ⟨some keyDate, [("Lunar", 0), ("Wave", 0), ("Ion", 0), ("101", 0)]⟩

/-- JS `(company||'').charAt(0).toUpperCase()+(company||'').slice(1)
    .toLowerCase()` (src/bot.js line 168). -/
def capitalizeKey (company : String) : String :=
  match company.data with
  | [] => ""
  | c :: rest => String.mk [c.toUpper] ++ jsToLower (String.mk rest)

/-- The property name used to index `DB.counters` (src/bot.js line 168). -/
def counterKey (company : String) : String :=
  if company = "101" then "101" else capitalizeKey company

/-- Object property read with the `in`-guarded default 0
    (`if (!(key in DB.counters)) DB.counters[key]=0` makes every read
    effectively default to 0). -/
def lookupD : List (String × Nat) → String → Nat
  | [], _ => 0
  | (k0, v0) :: rest, k => if k0 = k then v0 else lookupD rest k

/-- Object property write `DB.counters[key] = v` (adds the property at the
    end when absent, as the source's `in`-guarded insertion does). -/
def setEntry : List (String × Nat) → String → Nat → List (String × Nat)
  | [], k, v => [(k, v)]
  | (k0, v0) :: rest, k, v =>
    if k0 = k then (k0, v) :: rest else (k0, v0) :: setEntry rest k v

/-- `function nextTxnId(company)` (src/bot.js lines 165–172), with the
    ambient clock and `DB.counters` passed explicitly. -/
def nextTxnId (now : LocalDateTime) (company : String) (st : Counters) :
    String × Counters :=
  let keyDate := resetKeyNoon now
  let st1 := if st.date ≠ some keyDate then freshCounters keyDate else st
  let key := counterKey company
  let newVal := lookupD st1.entries key % 999 + 1
  (companyPrefix company ++ padStart 3 '0' (toString newVal),
   ⟨st1.date, setEntry st1.entries key newVal⟩)

/-- Iterated allocation for one company at a fixed instant: the state after
    `n` consecutive calls of `nextTxnId`. -/
def allocN (now : LocalDateTime) (company : String) (st : Counters) : Nat → Counters
  | 0 => st
  | n + 1 => (nextTxnId now company (allocN now company st n)).2

/-- The assembled payload `body ++ tlv('63', crc)` has this body (the
    zeta-reduced `let body` of `buildPayNowPayload`). -/
def payBody (cfg : Config) (a : PayloadArgs) (mai : String) : String :=
  tlv "00" "01" ++ tlv "01" "12" ++ mai ++ tlv "52" "0000" ++ tlv "53" "702"
    ++ tlv "54" (toFixed2 a.amountCents) ++ tlv "58" "SG"
    ++ tlv "59" (jsTake 25 cfg.MERCHANT_NAME)
    ++ tlv "60" (if cfg.MERCHANT_CITY = "" then "Singapore" else cfg.MERCHANT_CITY)
    ++ tlv "62" (tlv "01" (jsTake 25 a.reference))

/-! ## Concrete test fixtures -/

/-- A concrete deployment environment: UEN mode, a UEN, a merchant name. -/
def env0 : Env := ⟨some "uen", some "201403121W", none, some "ACME PTE LTD", none⟩

/-- The module configuration loaded from `env0`. -/
def cfg0 : Config := configOfEnv env0

/-- Concrete assembler arguments: SGD 103.00, a bill reference, and the
    destructuring defaults taken from the module configuration. -/
def args0 : PayloadArgs :=
  ⟨cfg0.MODE, cfg0.UEN, cfg0.MOBILE, 10300, "L001 - Amy - T5",
   cfg0.MERCHANT_NAME, cfg0.MERCHANT_CITY, false, none⟩

/-- The payload the assembler produces on `cfg0` / `args0` (extracted from
    the `Except.ok` result; the error arm is unreachable on these inputs). -/
def payload0 : String :=
  match buildPayNowPayload cfg0 args0 with
  | .ok s => s
  | .error _ => ""

/-- The payload the claim-shaped assembler (C2's field list, without the
    merchant-category-code field) produces on `cfg0` / `args0`. -/
def payloadClaimed0 : String :=
  match buildPayNowPayloadClaimedC2 cfg0 args0 with
  | .ok s => s
  | .error _ => ""

/-- A 100-character value, above the 2-digit length ceiling of a TLV field. -/
def longVal : String := String.mk (List.replicate 100 'a')

/-! ## Helper lemmas -/

theorem strAppend_assoc (a b c : String) : a ++ b ++ c = a ++ (b ++ c) := by
  apply String.ext
  simp [List.append_assoc]

theorem jsLength_append (a b : String) : jsLength (a ++ b) = jsLength a + jsLength b := by
  simp [jsLength]

theorem jsLength_padStart (n : Nat) (c : Char) (s : String) :
    jsLength (padStart n c s) = max n (jsLength s) := by
  simp [padStart, jsLength]
  omega

theorem repr_length_le_two : ∀ n < 100, jsLength (toString n) ≤ 2 := by decide

theorem crcShift_lt (c : Nat) : crcShift c < 65536 := by
  have h : crcShift c ≤ 65535 := Nat.and_le_right
  omega

theorem crcBits_lt_of_lt : ∀ (b c : Nat), c < 65536 → crcBits b c < 65536
  | 0, _, h => h
  | b + 1, c, _ => crcBits_lt_of_lt b (crcShift c) (crcShift_lt c)

theorem crcBits_succ_lt (b c : Nat) : crcBits (b + 1) c < 65536 :=
  crcBits_lt_of_lt b (crcShift c) (crcShift_lt c)

theorem crcFold_lt : ∀ (codes : List Nat) (c : Nat), c < 65536 → crcFold c codes < 65536
  | [], _, h => h
  | _ :: rest, _, _ =>
    crcFold_lt rest _ (crcBits_succ_lt 7 _)

theorem toHexAux_length_le :
    ∀ (fuel n k : Nat), 0 < k → n < 16 ^ k → (toHexAux fuel n).length ≤ k := by
  intro fuel
  induction fuel with
  | zero => intro n k hk _; simp [toHexAux]
  | succ fuel ih =>
    intro n k hk hn
    by_cases h16 : n < 16
    · simp [toHexAux, h16]; omega
    · have hk2 : 2 ≤ k := by
        by_contra hlt
        have : k = 1 := by omega
        subst this
        simp [pow_one] at hn
        omega
      have hdiv : n / 16 < 16 ^ (k - 1) := by
        have : (16 : Nat) ^ k = 16 ^ (k - 1) * 16 := by
          conv_lhs => rw [show k = (k - 1) + 1 by omega]
          rw [pow_succ]
        exact Nat.div_lt_of_lt_mul (by omega)
      have := ih (n / 16) (k - 1) (by omega) hdiv
      simp [toHexAux, h16]
      omega

theorem crc16ccitt_jsLength (s : String) : jsLength (crc16ccitt s) = 4 := by
  have hreg : crcFold 0xffff (charCodes s) < 65536 :=
    crcFold_lt (charCodes s) 0xffff (by omega)
  have hlen : jsLength (toHexUpper (crcFold 0xffff (charCodes s))) ≤ 4 :=
    toHexAux_length_le _ _ 4 (by omega) (by simpa using hreg)
  rw [crc16ccitt, jsLength_padStart]
  omega

theorem tlv_of_length_four (id v : String) (h : jsLength v = 4) :
    tlv id v = id ++ "04" ++ v := by
  rw [tlv, h]
  rfl

theorem lookupD_setEntry_self (es : List (String × Nat)) (k : String) (v : Nat) :
    lookupD (setEntry es k v) k = v := by
  induction es with
  | nil => simp [setEntry, lookupD]
  | cons e rest ih =>
    by_cases h : e.1 = k
    · simp [setEntry, h, lookupD]
    · simp [setEntry, h, lookupD, ih]

theorem lookupD_setEntry_other (es : List (String × Nat)) (k k' : String) (v : Nat)
    (hne : k ≠ k') : lookupD (setEntry es k v) k' = lookupD es k' := by
  induction es with
  | nil => simp [setEntry, lookupD, hne]
  | cons e rest ih =>
    by_cases h : e.1 = k
    · simp [setEntry, h, lookupD, hne]
    · simp [setEntry, h, lookupD, ih]

theorem lookupD_fresh (keyDate : String) (k : String) :
    lookupD (freshCounters keyDate).entries k = 0 := by
  simp only [freshCounters, lookupD]
  split <;> [rfl; skip]
  split <;> [rfl; skip]
  split <;> [rfl; skip]
  split <;> rfl

theorem buildPayNowPayload_ok_shape (cfg : Config) (a : PayloadArgs) (p : String)
    (h : buildPayNowPayload cfg a = .ok p) :
    ∃ mai, buildMAI_PayNow ⟨a.mode, a.uen, a.mobile, a.editable, a.expiry⟩ = .ok mai
      ∧ p = payBody cfg a mai ++ tlv "63" (crc16ccitt (payBody cfg a mai ++ "63" ++ "04")) := by
  rw [buildPayNowPayload] at h
  split at h
  · exact absurd h (by simp)
  · split at h
    · exact absurd h (by simp)
    · next id26 heq =>
      have h' : (Except.ok
          (payBody cfg a id26 ++ tlv "63" (crc16ccitt (payBody cfg a id26 ++ "63" ++ "04")))
            : Except PayErr String) = Except.ok p := h
      exact ⟨id26, heq, (Except.ok.inj h').symm⟩

/-! ## Claim theorems -/

/-- C4: `crc16ccitt` implements CRC16/CCITT-FALSE — its definition is the
    register/shift/mask algorithm of the source, it matches the published
    CRC16/CCITT-FALSE test vectors `"123456789" ↦ 29B1`, `"A" ↦ B915`,
    `"" ↦ FFFF` (the empty message leaves the `0xFFFF` initial register),
    and its output is always 4 zero-padded uppercase-hex characters. -/
theorem crc16ccitt_ccitt_false_vectors :
    crc16ccitt "123456789" = "29B1" ∧ crc16ccitt "A" = "B915"
      ∧ crc16ccitt "" = "FFFF" ∧ ∀ s : String, jsLength (crc16ccitt s) = 4 :=
  ⟨by decide, by decide, by decide, crc16ccitt_jsLength⟩

/-- C7 counterexample: the TLV encoder does NOT fail on a value longer than
    99 characters — on a 100-character value it silently returns a normal
    return value whose length prefix is the three digits `"100"`. -/
theorem tlv_no_fieldTooLong_counterexample :
    jsLength longVal = 100 ∧ tlv "26" longVal = "26" ++ "100" ++ longVal := by
  constructor
  · decide
  · rfl

/-- C7 amended: `tlv` performs no length validation and cannot fail; every
    value, of any length, is encoded as
    `tag ++ padStart(2, '0', decimal length) ++ value`. A value longer than
    99 characters is silently encoded with a length prefix of more than two
    digits (corrupting the fixed-width format) rather than rejected. -/
theorem tlv_total_no_length_check :
    (∀ id v, tlv id v = id ++ padStart 2 '0' (toString (jsLength v)) ++ v)
      ∧ tlv "26" longVal = "26" ++ "100" ++ longVal
      ∧ jsLength (padStart 2 '0' (toString (jsLength longVal))) = 3 :=
  ⟨fun _ _ => rfl, rfl, by decide⟩

/-- C8: TLV round-trip — for every tag and every value of length at most
    99, the encoding is the tag, then the zero-padded 2-character decimal
    length of the value, then the value verbatim. -/
theorem tlv_roundtrip (id v : String) (h : jsLength v ≤ 99) :
    tlv id v = id ++ padStart 2 '0' (toString (jsLength v)) ++ v
      ∧ jsLength (padStart 2 '0' (toString (jsLength v))) = 2 := by
  refine ⟨rfl, ?_⟩
  rw [jsLength_padStart]
  have := repr_length_le_two (jsLength v) (by omega)
  omega

/-- Witness for C8 at tag `"00"`, value `"abc"`. -/
theorem tlv_roundtrip_witness :
    tlv "00" "abc" = "00" ++ padStart 2 '0' (toString (jsLength "abc")) ++ "abc"
      ∧ jsLength (padStart 2 '0' (toString (jsLength "abc"))) = 2 :=
  tlv_roundtrip "00" "abc" (by decide)

/-- C9: the assembler fails with `InvalidAmount` whenever the amount is not
    greater than 0, and a validation failure returns an error only — never
    any (partial) payload string: construction is all-or-nothing. -/
theorem paynow_invalid_amount_all_or_nothing :
    (∀ (cfg : Config) (a : PayloadArgs), ¬ 0 < a.amountCents →
        buildPayNowPayload cfg a = .error .InvalidAmount)
      ∧ (∀ (cfg : Config) (a : PayloadArgs) (e : PayErr) (p : String),
          buildPayNowPayload cfg a = .error e → buildPayNowPayload cfg a ≠ .ok p) := by
  constructor
  · intro cfg a h
    simp [buildPayNowPayload, h]
  · intro cfg a e p he hok
    rw [he] at hok
    exact Except.noConfusion hok

/-- Witness for C9: amount 0 on the concrete configuration fails with
    `InvalidAmount`. -/
theorem paynow_invalid_amount_witness :
    buildPayNowPayload cfg0 { args0 with amountCents := 0 } = .error .InvalidAmount :=
  paynow_invalid_amount_all_or_nothing.1 cfg0 { args0 with amountCents := 0 } (by decide)

/-- C1: checksum self-consistency — every successfully built payload is a
    body followed by `"63" ++ "04"` and then exactly the 4 hex characters
    `crc16ccitt(body ++ "63" ++ "04")`: recomputing the checksum over the
    stripped payload plus the checksum field's tag and length reproduces
    the appended checksum value. -/
theorem paynow_checksum_self_consistency (cfg : Config) (a : PayloadArgs) (p : String)
    (h : buildPayNowPayload cfg a = .ok p) :
    ∃ body, p = body ++ "63" ++ "04" ++ crc16ccitt (body ++ "63" ++ "04")
      ∧ jsLength (crc16ccitt (body ++ "63" ++ "04")) = 4 := by
  obtain ⟨mai, _, hp⟩ := buildPayNowPayload_ok_shape cfg a p h
  refine ⟨payBody cfg a mai, ?_, crc16ccitt_jsLength _⟩
  rw [hp, tlv_of_length_four _ _ (crc16ccitt_jsLength _)]
  simp [strAppend_assoc]

/-- Witness for C1 on the concrete configuration and arguments. -/
theorem paynow_checksum_self_consistency_witness :
    ∃ body, payload0 = body ++ "63" ++ "04" ++ crc16ccitt (body ++ "63" ++ "04")
      ∧ jsLength (crc16ccitt (body ++ "63" ++ "04")) = 4 :=
  paynow_checksum_self_consistency cfg0 args0 payload0 rfl

/-- C2 counterexample: the payload is NOT the concatenation of only the
    claim's listed fields — on a concrete input the assembler emits the
    merchant-category-code field `"52" ++ "04" ++ "0000"` between the
    merchant-account-info block and the currency field, so it differs from
    the claim-shaped assembly (which also yields a different checksum). -/
theorem paynow_field_list_counterexample :
    buildPayNowPayload cfg0 args0 = .ok payload0
      ∧ buildPayNowPayloadClaimedC2 cfg0 args0 = .ok payloadClaimed0
      ∧ jsTake 61 payload0
          = "00020101021226370009SG.PAYNOW010120210201403121W0301052040000"
      ∧ jsTake 61 payloadClaimed0
          = "00020101021226370009SG.PAYNOW010120210201403121W0301053037025"
      ∧ payload0 ≠ payloadClaimed0 := by
  refine ⟨rfl, rfl, by decide, by decide, ?_⟩
  intro h
  exact absurd (congrArg (jsTake 61) h) (by decide)

/-- C2 amended: the assembler concatenates, in this fixed order and no
    others: payload-format-indicator, point-of-initiation-method, the
    merchant-account-info block, the merchant-category-code field
    (`"52"`, value `"0000"` — present in the code, absent from the claim),
    transaction-currency `"702"`, the transaction amount with exactly two
    decimal digits, country-code `"SG"`, merchant-name, merchant-city, the
    additional-data block wrapping bill-reference subfield `"01"`, and the
    checksum field. -/
theorem paynow_assembly_order_amended (cfg : Config) (a : PayloadArgs) (p : String)
    (h : buildPayNowPayload cfg a = .ok p) :
    ∃ mai body,
      buildMAI_PayNow ⟨a.mode, a.uen, a.mobile, a.editable, a.expiry⟩ = .ok mai
      ∧ body = tlv "00" "01" ++ tlv "01" "12" ++ mai ++ tlv "52" "0000" ++ tlv "53" "702"
          ++ tlv "54" (toFixed2 a.amountCents) ++ tlv "58" "SG"
          ++ tlv "59" (jsTake 25 cfg.MERCHANT_NAME)
          ++ tlv "60" (if cfg.MERCHANT_CITY = "" then "Singapore" else cfg.MERCHANT_CITY)
          ++ tlv "62" (tlv "01" (jsTake 25 a.reference))
      ∧ p = body ++ tlv "63" (crc16ccitt (body ++ "63" ++ "04"))
      ∧ ∃ dd, toFixed2 a.amountCents = toString (a.amountCents.toNat / 100) ++ "." ++ dd
          ∧ jsLength dd = 2 := by
  obtain ⟨mai, hmai, hp⟩ := buildPayNowPayload_ok_shape cfg a p h
  refine ⟨mai, payBody cfg a mai, hmai, rfl, hp,
    padStart 2 '0' (toString (a.amountCents.toNat % 100)), rfl, ?_⟩
  rw [jsLength_padStart]
  have h100 : a.amountCents.toNat % 100 < 100 := Nat.mod_lt _ (by omega)
  have := repr_length_le_two (a.amountCents.toNat % 100) h100
  omega

/-- Witness for the amended C2 on the concrete configuration and
    arguments. -/
theorem paynow_assembly_order_amended_witness :
    ∃ mai body,
      buildMAI_PayNow ⟨args0.mode, args0.uen, args0.mobile, args0.editable, args0.expiry⟩
          = .ok mai
      ∧ body = tlv "00" "01" ++ tlv "01" "12" ++ mai ++ tlv "52" "0000" ++ tlv "53" "702"
          ++ tlv "54" (toFixed2 args0.amountCents) ++ tlv "58" "SG"
          ++ tlv "59" (jsTake 25 cfg0.MERCHANT_NAME)
          ++ tlv "60" (if cfg0.MERCHANT_CITY = "" then "Singapore" else cfg0.MERCHANT_CITY)
          ++ tlv "62" (tlv "01" (jsTake 25 args0.reference))
      ∧ payload0 = body ++ tlv "63" (crc16ccitt (body ++ "63" ++ "04"))
      ∧ ∃ dd, toFixed2 args0.amountCents = toString (args0.amountCents.toNat / 100) ++ "." ++ dd
          ∧ jsLength dd = 2 :=
  paynow_assembly_order_amended cfg0 args0 payload0 rfl

/-- C3: mobile proxy normalization — in mobile mode the builder succeeds
    exactly when the digit-stripped input matches one of the four accepted
    shapes (`normalizeLocal8`) and the resulting 8 digits match
    `[89]\d{7}` (`validLocal8`); otherwise it fails with
    `InvalidProxyValue` (never any other error). `"91234567"`,
    `"6591234567"`, `"06591234567"`, `"006591234567"` all normalize to
    `"91234567"` and succeed; `"12345678"` fails. -/
theorem buildMAI_mobile_normalization :
    (∀ m : MAIArgs, m.mode = "mobile" →
        ((∃ s, buildMAI_PayNow m = .ok s) ↔
          ∃ l8, normalizeLocal8 (stripNonDigits m.mobile) = some l8 ∧ validLocal8 l8 = true))
      ∧ (∀ m : MAIArgs, m.mode = "mobile" →
          (∃ s, buildMAI_PayNow m = .ok s)
            ∨ buildMAI_PayNow m = .error .InvalidProxyValue)
      ∧ normalizeLocal8 (stripNonDigits "91234567") = some "91234567"
      ∧ normalizeLocal8 (stripNonDigits "6591234567") = some "91234567"
      ∧ normalizeLocal8 (stripNonDigits "06591234567") = some "91234567"
      ∧ normalizeLocal8 (stripNonDigits "006591234567") = some "91234567"
      ∧ buildMAI_PayNow ⟨"mobile", "", "91234567", false, none⟩
          = .ok "26350009SG.PAYNOW0101002089123456703010"
      ∧ buildMAI_PayNow ⟨"mobile", "", "6591234567", false, none⟩
          = .ok "26350009SG.PAYNOW0101002089123456703010"
      ∧ buildMAI_PayNow ⟨"mobile", "", "06591234567", false, none⟩
          = .ok "26350009SG.PAYNOW0101002089123456703010"
      ∧ buildMAI_PayNow ⟨"mobile", "", "006591234567", false, none⟩
          = .ok "26350009SG.PAYNOW0101002089123456703010"
      ∧ buildMAI_PayNow ⟨"mobile", "", "12345678", false, none⟩
          = .error .InvalidProxyValue := by
  refine ⟨?_, ?_, by decide, by decide, by decide, by decide, rfl, rfl, rfl, rfl, rfl⟩
  · intro m hm
    rw [buildMAI_PayNow, if_pos hm]
    cases hn : normalizeLocal8 (stripNonDigits m.mobile) with
    | none =>
      simp only [hn]
      constructor
      · rintro ⟨s, hs⟩
        exact Except.noConfusion hs
      · rintro ⟨l8, hl8, _⟩
        exact Option.noConfusion hl8
    | some l8 =>
      simp only [hn]
      by_cases hv : validLocal8 l8 = true
      · rw [if_pos hv]
        exact ⟨fun _ => ⟨l8, rfl, hv⟩, fun _ => ⟨_, rfl⟩⟩
      · rw [if_neg hv]
        constructor
        · rintro ⟨s, hs⟩
          exact Except.noConfusion hs
        · rintro ⟨l8h, hl8, hvh⟩
          cases Option.some.inj hl8
          exact absurd hvh hv
  · intro m hm
    rw [buildMAI_PayNow, if_pos hm]
    cases hn : normalizeLocal8 (stripNonDigits m.mobile) with
    | none =>
      simp only [hn]
      right
      trivial
    | some l8 =>
      simp only [hn]
      by_cases hv : validLocal8 l8 = true
      · left
        exact ⟨_, by rw [if_pos hv]⟩
      · right
        rw [if_neg hv]

/-- Witness for C3: the accepted/rejected characterization instantiated at
    the concrete raw input `"6591234567"`. -/
theorem buildMAI_mobile_normalization_witness :
    (∃ s, buildMAI_PayNow ⟨"mobile", "", "6591234567", false, none⟩ = .ok s) ↔
      ∃ l8, normalizeLocal8 (stripNonDigits "6591234567") = some l8
        ∧ validLocal8 l8 = true :=
  buildMAI_mobile_normalization.1 ⟨"mobile", "", "6591234567", false, none⟩ rfl

/-- C5: noon-boundary reset — before local noon the reset key is the
    previous calendar day's key, at or after noon it is the current day's;
    and whenever the stored key differs from the computed key, one
    allocation installs the fresh all-zero counters map: afterwards the
    requesting company's counter is 1 and every other counter is 0 — all
    companies were cleared together, not only the requester. -/
theorem noon_reset_spec :
    (∀ now : LocalDateTime, now.hour < 12 →
        resetKeyNoon now = dateKey (prevCalendarDay now.date))
      ∧ (∀ now : LocalDateTime, 12 ≤ now.hour → resetKeyNoon now = dateKey now.date)
      ∧ (∀ (now : LocalDateTime) (st : Counters) (company : String),
          st.date ≠ some (resetKeyNoon now) →
            (nextTxnId now company st).2.date = some (resetKeyNoon now)
            ∧ lookupD (nextTxnId now company st).2.entries (counterKey company) = 1
            ∧ ∀ k, k ≠ counterKey company →
                lookupD (nextTxnId now company st).2.entries k = 0) := by
  refine ⟨?_, ?_, ?_⟩
  · intro now h
    rw [resetKeyNoon, if_pos h]
  · intro now h
    rw [resetKeyNoon, if_neg (by omega)]
  · intro now st company h
    rw [nextTxnId]
    simp only [if_pos h]
    refine ⟨rfl, ?_, ?_⟩
    · rw [lookupD_setEntry_self, lookupD_fresh]
    · intro k hk
      rw [lookupD_setEntry_other _ _ _ _ (fun he => hk he.symm), lookupD_fresh]

/-- Witness for C5: a stale state (previous key, nonzero counters) at a
    morning instant and at an afternoon instant. -/
theorem noon_reset_spec_witness :
    resetKeyNoon ⟨⟨2026, 3, 1⟩, 11⟩ = dateKey (prevCalendarDay ⟨2026, 3, 1⟩)
      ∧ resetKeyNoon ⟨⟨2026, 3, 1⟩, 12⟩ = dateKey ⟨2026, 3, 1⟩
      ∧ lookupD (nextTxnId ⟨⟨2026, 3, 1⟩, 12⟩ "Lunar"
          ⟨some "2026-02-28-noon", [("Lunar", 7), ("Wave", 5), ("Ion", 2), ("101", 9)]⟩).2.entries
          "Wave" = 0
      ∧ lookupD (nextTxnId ⟨⟨2026, 3, 1⟩, 12⟩ "Lunar"
          ⟨some "2026-02-28-noon", [("Lunar", 7), ("Wave", 5), ("Ion", 2), ("101", 9)]⟩).2.entries
          (counterKey "Lunar") = 1 := by
  refine ⟨noon_reset_spec.1 ⟨⟨2026, 3, 1⟩, 11⟩ (by decide),
    noon_reset_spec.2.1 ⟨⟨2026, 3, 1⟩, 12⟩ (by decide), ?_, ?_⟩
  · exact (noon_reset_spec.2.2 ⟨⟨2026, 3, 1⟩, 12⟩
      ⟨some "2026-02-28-noon", [("Lunar", 7), ("Wave", 5), ("Ion", 2), ("101", 9)]⟩
      "Lunar" (by decide)).2.2 "Wave" (by decide)
  · exact (noon_reset_spec.2.2 ⟨⟨2026, 3, 1⟩, 12⟩
      ⟨some "2026-02-28-noon", [("Lunar", 7), ("Wave", 5), ("Ion", 2), ("101", 9)]⟩
      "Lunar" (by decide)).2.1

theorem allocN_lunar_count (now : LocalDateTime) :
    ∀ n, n ≤ 999 →
      (allocN now "Lunar" (freshCounters (resetKeyNoon now)) n).date
          = some (resetKeyNoon now)
      ∧ lookupD (allocN now "Lunar" (freshCounters (resetKeyNoon now)) n).entries
          (counterKey "Lunar") = n := by
  intro n
  induction n with
  | zero =>
    intro _
    exact ⟨rfl, lookupD_fresh _ _⟩
  | succ n ih =>
    intro h
    obtain ⟨hd, hc⟩ := ih (by omega)
    rw [allocN, nextTxnId]
    simp only [hd, ne_eq, not_true_eq_false, if_false]
    refine ⟨trivial, ?_⟩
    rw [lookupD_setEntry_self, hc, Nat.mod_eq_of_lt (by omega)]

/-- C6: counter wraparound — in an allocation window whose key matches,
    each allocation for a company updates its counter to
    `(value % 999) + 1`, which always lies in 1..999 (never 0), and
    returns the fixed company-prefix letter followed by the zero-padded
    3-digit counter; 999 consecutive allocations for one company followed
    by a 1000th yield counter 1 again (`"L001"` for Lunar); and the prefix
    map is Lunar→L, Wave→W, Ion→I, 101→1, anything else→X. -/
theorem counter_wraparound_spec :
    (∀ (now : LocalDateTime) (st : Counters) (company : String),
        st.date = some (resetKeyNoon now) →
          (nextTxnId now company st).1
              = companyPrefix company
                ++ padStart 3 '0'
                    (toString (lookupD st.entries (counterKey company) % 999 + 1))
          ∧ lookupD (nextTxnId now company st).2.entries (counterKey company)
              = lookupD st.entries (counterKey company) % 999 + 1
          ∧ 1 ≤ lookupD st.entries (counterKey company) % 999 + 1
          ∧ lookupD st.entries (counterKey company) % 999 + 1 ≤ 999)
      ∧ (∀ now : LocalDateTime,
          (nextTxnId now "Lunar"
              (allocN now "Lunar" (freshCounters (resetKeyNoon now)) 999)).1 = "L001")
      ∧ companyPrefix "Lunar" = "L" ∧ companyPrefix "Wave" = "W"
      ∧ companyPrefix "Ion" = "I" ∧ companyPrefix "101" = "1"
      ∧ (∀ company : String, jsToLower company ≠ "lunar" → jsToLower company ≠ "wave" →
          jsToLower company ≠ "ion" → jsToLower company ≠ "101" →
            companyPrefix company = "X") := by
  refine ⟨?_, ?_, by decide, by decide, by decide, by decide, ?_⟩
  · intro now st company h
    rw [nextTxnId]
    simp only [h, ne_eq, not_true_eq_false, if_false]
    have hmod : lookupD st.entries (counterKey company) % 999 < 999 :=
      Nat.mod_lt _ (by omega)
    exact ⟨trivial, lookupD_setEntry_self _ _ _, by omega, by omega⟩
  · intro now
    obtain ⟨hd, hc⟩ := allocN_lunar_count now 999 (by omega)
    rw [nextTxnId]
    simp only [hd, ne_eq, not_true_eq_false, if_false]
    rw [hc]
    rfl
  · intro company h1 h2 h3 h4
    rw [companyPrefix]
    simp only [h1, h2, h3, h4, if_false]

/-- Witness for C6: one allocation on a matching window with counter 999
    wraps to 1, and an unknown company maps to prefix `X`. -/
theorem counter_wraparound_spec_witness :
    (nextTxnId ⟨⟨2026, 3, 1⟩, 13⟩ "Lunar"
        ⟨some (resetKeyNoon ⟨⟨2026, 3, 1⟩, 13⟩), [("Lunar", 999)]⟩).1
      = companyPrefix "Lunar"
        ++ padStart 3 '0'
            (toString (lookupD [("Lunar", 999)] (counterKey "Lunar") % 999 + 1))
      ∧ companyPrefix "Acme" = "X" := by
  constructor
  · exact (counter_wraparound_spec.1 ⟨⟨2026, 3, 1⟩, 13⟩
      ⟨some (resetKeyNoon ⟨⟨2026, 3, 1⟩, 13⟩), [("Lunar", 999)]⟩ "Lunar" rfl).1
  · exact counter_wraparound_spec.2.2.2.2.2.2 "Acme" (by decide) (by decide)
      (by decide) (by decide)

theorem envStr_ne_of_default_ne (o : Option String) (d : String) (hd : d ≠ "") :
    envStr o d ≠ "" := by
  cases o with
  | none => exact hd
  | some s =>
    by_cases hs : s = ""
    · simp only [envStr, hs, if_true]
      exact hd
    · simp only [envStr, hs, if_false]
      exact hs

/-- C10: the assembler ignores its `merchantName` / `merchantCity`
    arguments — two calls differing only in those two arguments return
    identical results — and on success the tag-59 field always carries the
    module-level `MERCHANT_NAME` constant clipped to 25 characters while
    the tag-60 field always carries the module-level `MERCHANT_CITY`
    constant (which is never empty, so the `|| 'Singapore'` fallback on
    line 106 is inert). -/
theorem merchant_fields_from_config :
    (∀ (cfg : Config) (a : PayloadArgs) (n1 c1 n2 c2 : String),
        buildPayNowPayload cfg { a with merchantName := n1, merchantCity := c1 }
          = buildPayNowPayload cfg { a with merchantName := n2, merchantCity := c2 })
      ∧ (∀ (e : Env) (a : PayloadArgs) (p : String),
          buildPayNowPayload (configOfEnv e) a = .ok p →
            ∃ pre post,
              p = pre ++ tlv "59" (jsTake 25 (configOfEnv e).MERCHANT_NAME)
                  ++ tlv "60" (configOfEnv e).MERCHANT_CITY ++ post) := by
  constructor
  · intro cfg a n1 c1 n2 c2
    rfl
  · intro e a p h
    obtain ⟨mai, _, hp⟩ := buildPayNowPayload_ok_shape (configOfEnv e) a p h
    have hcity : (configOfEnv e).MERCHANT_CITY ≠ "" :=
      envStr_ne_of_default_ne e.MERCHANT_CITY "Singapore" (by decide)
    refine ⟨tlv "00" "01" ++ tlv "01" "12" ++ mai ++ tlv "52" "0000" ++ tlv "53" "702"
        ++ tlv "54" (toFixed2 a.amountCents) ++ tlv "58" "SG",
      tlv "62" (tlv "01" (jsTake 25 a.reference))
        ++ tlv "63" (crc16ccitt (payBody (configOfEnv e) a mai ++ "63" ++ "04")), ?_⟩
    rw [hp, payBody, if_neg hcity]
    simp only [strAppend_assoc]

/-- Witness for C10 on the concrete environment and arguments. -/
theorem merchant_fields_from_config_witness :
    ∃ pre post,
      payload0 = pre ++ tlv "59" (jsTake 25 (configOfEnv env0).MERCHANT_NAME)
          ++ tlv "60" (configOfEnv env0).MERCHANT_CITY ++ post :=
  merchant_fields_from_config.2 env0 args0 payload0 rfl
